import Mathlib

/-!
Shallow embedding of `youtube_content_machine.py` (YouTube Shorts automation
pipeline) and proofs about the claims of its specification.

External collaborators (HTTP transport, the stock-media search API, the video
encoder, the image library, the upload API) are modelled as explicit
parameters: a transport is a function from attempt number to an optional
response body (`none` models a `requests` transport exception), the parsed
search response is a list of candidate videos, randomness is passed as an
explicit index or rational in `[0,1]`, and the local filesystem is a list of
path strings threaded through every stage.
-/

namespace YCM

/-- The local filesystem, as the set (list, no duplicates assumed) of paths of
existing files. -/
abbrev Fs := List String

/-- Embeds `open(path, "wb"); f.write(...)`: creates `path` (idempotently) in
the filesystem. -/
def fsWrite (fs : Fs) (p : String) : Fs :=
  if p ∈ fs then fs else p :: fs

/-- Embeds `Path.unlink(missing_ok=...)`: removes `p` when present; when absent
it raises `FileNotFoundError` unless `missingOk` is set. -/
def fsUnlink (missingOk : Bool) (p : String) (fs : Fs) : Except String Fs :=
  if p ∈ fs then .ok (fs.filter (fun q => q != p))
  else if missingOk then .ok fs
  else .error "FileNotFoundError"

/-- Outcome of `ContentDownloader._download_file`: the returned path or the
raised error, the number of `logging.warning` calls made, the number of
download attempts made, and the resulting filesystem. -/
structure DownloadOutcome where
  result : Except String String
  warnings : Nat
  attempts : Nat
  fs : Fs

/-- Embeds the `for attempt in range(3)` loop body of
`ContentDownloader._download_file`: `pending` is the list of attempt indices
still to run, `warns` the warnings logged so far.  A `some` transport response
is written to `path` and returned; a `none` response (a
`requests.exceptions.RequestException`) logs one warning and continues; an
empty `pending` list falls through to
`raise ConnectionError(f"Failed to download {url} after 3 attempts")`. -/
def downloadFileGo (transport : Nat → Option String) (url path : String)
    (fs : Fs) : List Nat → Nat → DownloadOutcome
  | [], warns => ⟨.error ("Failed to download " ++ url ++ " after 3 attempts"),
      warns, warns, fs⟩
  | a :: rest, warns =>
    match transport a with
    | some _ => ⟨.ok path, warns, warns + 1, fsWrite fs path⟩
    | none => downloadFileGo transport url path fs rest (warns + 1)

/-- Embeds `ContentDownloader._download_file(url, filename)`: the target path
is `CONTENT_DIR / filename` and the loop runs attempts `0, 1, 2`. -/
def downloadFile (transport : Nat → Option String) (url filename : String)
    (fs : Fs) : DownloadOutcome :=
  downloadFileGo transport url ("content/" ++ filename) fs [0, 1, 2] 0

/-- Embeds Python `random.uniform(a, b)` with the library call's internal
random draw `r ∈ [0,1]` made explicit: `a + (b-a)*r`, over `ℚ`. -/
def uniform (a b r : ℚ) : ℚ := a + (b - a) * r

/-- Embeds the frame-timestamp sampling of `ThumbnailGenerator.generate`:
`timestamp = random.uniform(1, clip.duration - 1)`.  The source has no guard
on the duration. -/
def generateTimestamp (duration r : ℚ) : ℚ := uniform 1 (duration - 1) r

/-- Outcome of `ThumbnailGenerator.generate`: the returned path (with the new
filesystem) or the raised error, plus the timestamp that was sampled when
execution reached the sampling statement. -/
structure ThumbOutcome where
  result : Except String (String × Fs)
  sampled : Option ℚ

/-- Embeds `ThumbnailGenerator.generate(video_path, output_path, text)`:
opening a missing video raises; otherwise the timestamp is sampled
unconditionally, the frame is extracted and drawn on (external image
operations, modelled by the `frameOk` flag), and the image is saved to
`outputPath`.  Any failure is logged and re-raised. -/
def generate (duration r : ℚ) (frameOk : Bool) (videoPath outputPath _text : String)
    (fs : Fs) : ThumbOutcome :=
  if videoPath ∈ fs then
    let ts := generateTimestamp duration r
    if frameOk then ⟨.ok (outputPath, fsWrite fs outputPath), some ts⟩
    else ⟨.error "Thumbnail generation failed", some ts⟩
  else ⟨.error "Thumbnail generation failed", none⟩

/-- Embeds Python `random.choice(xs)` with the uniform index draw `i` made
explicit: raises `IndexError` on an empty sequence, otherwise returns the
element at the drawn index. -/
def randomChoice {α : Type} (xs : List α) (i : Nat) : Except String α :=
  if h : xs.length = 0 then
    .error "IndexError: Cannot choose from an empty sequence"
  else .ok (xs.get ⟨i % xs.length, Nat.mod_lt i (Nat.pos_of_ne_zero h)⟩)

/-- The `CONTENT_DIR / "music"` directory: whether it exists, and the files its
`glob("*.mp3")` returns. -/
structure MusicDir where
  dirExists : Bool
  tracks : List String

/-- An audio decision of `VideoEditor.process_video`: either no background
music, or one track mixed at the given volume factor. -/
inductive AudioMix : Type
  | noMusic : AudioMix
  | track (name : String) (volume : ℚ) : AudioMix
deriving DecidableEq

/-- Embeds the background-music block of `VideoEditor.process_video`:
`if (CONTENT_DIR / "music").exists():` then
`music = random.choice(list((CONTENT_DIR / "music").glob("*.mp3")))` and the
chosen track is mixed via `volumex(0.3)`.  Only existence of the directory is
checked; `random.choice` on an empty track list raises. -/
def processVideoAudio (md : MusicDir) (i : Nat) : Except String AudioMix :=
  if md.dirExists then
    match randomChoice md.tracks i with
    | .ok m => .ok (.track m (3 / 10))
    | .error e => .error e
  else .ok .noMusic

/-- Embeds `VideoEditor.process_video(input_path, output_path, text)`: opening
a missing input raises; the music block runs (and its exception, e.g. the
`IndexError` from `random.choice([])`, is logged and re-raised); the encode
(external, modelled by `encodeOk`) writes `outputPath` on success. -/
def processVideo (md : MusicDir) (musicIdx : Nat) (encodeOk : Bool)
    (inputPath outputPath _text : String) (fs : Fs) :
    Except String (String × Fs) :=
  if inputPath ∈ fs then
    match processVideoAudio md musicIdx with
    | .error e => .error e
    | .ok _ =>
      if encodeOk then .ok (outputPath, fsWrite fs outputPath)
      else .error "Video processing failed"
  else .error "Video processing failed"

/-- Embeds Python `str.capitalize()` for the strings used here: first
character uppercased, the rest lowercased. -/
def pyCapitalize (s : String) : String :=
  match s.data with
  | [] => ""
  | c :: rest => String.mk (c.toUpper :: rest.map Char.toLower)

/-- The four-character sequence `U+00F0 U+0178 U+0161 U+20AC` that the source
file contains where a rocket emoji was evidently intended: it is exactly the
UTF-8 byte sequence of `🚀` (U+1F680) mis-decoded as cp1252. -/
def rocketText : String := "ðŸš€"

/-- The `text=` argument `run_pipeline` passes to `process_video`. -/
def captionText : String := "5 SECONDS HACKS! " ++ rocketText

/-- Embeds the metadata dict assembled in `ContentScheduler.run_pipeline`. -/
structure VideoMetadata where
  title : String
  description : String
  tags : List String
  niche : String

/-- Embeds the `metadata = {...}` assembly of `run_pipeline`. -/
def mkMetadata (niche : String) : VideoMetadata :=
  { title := "5 Second " ++ pyCapitalize niche ++ " Hacks! " ++ rocketText
  , description := "Amazing " ++ niche ++ " tips you need to try!"
  , tags := [niche, "shorts", "viral"]
  , niche := niche }

/-- Embeds Python `sep.join(xs)`. -/
def pyJoin (sep : String) : List String → String
  | [] => ""
  | [s] => s
  | s :: rest => s ++ sep ++ pyJoin sep rest

/-- Embeds `Config.default_hashtags`. -/
def defaultHashtags : List String := ["#Shorts", "#Viral", "#Trending"]

/-- Embeds `YouTubeUploader._build_description(metadata)`. -/
def buildDescription (m : VideoMetadata) : String :=
  pyJoin "\n"
    [m.description, "", pyJoin " " defaultHashtags,
     "#" ++ m.niche.replace " " ""]

/-- The request body built by `YouTubeUploader.upload_video`: the `snippet`
and `status` fields. -/
structure UploadBody where
  title : String
  description : String
  categoryId : String
  tags : List String
  privacyStatus : String
  selfDeclaredMadeForKids : Bool

/-- Embeds the `body = {...}` construction of `upload_video`. -/
def uploadBody (m : VideoMetadata) : UploadBody :=
  { title := m.title
  , description := buildDescription m
  , categoryId := "24"
  , tags := m.tags
  , privacyStatus := "public"
  , selfDeclaredMadeForKids := false }

/-- Embeds `YouTubeUploader.upload_video(video_path, metadata,
thumbnail_path)`: reading a missing video file raises; the resumable upload
(external, modelled by `uploadId`: `some id` is the terminal response, `none`
a transfer failure) yields the created video's id; when a thumbnail path is
given, the thumbnail-set call (external, modelled by `thumbAttachOk`) runs and
its failure is raised undistinguished from upload failure. -/
def uploadVideo (uploadId : Option String) (thumbAttachOk : Bool)
    (videoPath : String) (m : VideoMetadata) (thumbnailPath : Option String)
    (fs : Fs) : Except String (UploadBody × String) :=
  if videoPath ∈ fs then
    match uploadId with
    | none => .error "Upload failed"
    | some vid =>
      match thumbnailPath with
      | some _ =>
        if thumbAttachOk then .ok (uploadBody m, vid)
        else .error "Upload failed"
      | none => .ok (uploadBody m, vid)
  else .error "Upload failed"

/-- Embeds a parsed candidate of the Pexels search response: its `id` and its
`video_files` links. -/
structure PexelsVideo where
  id : Nat
  videoFiles : List String
deriving DecidableEq

/-- The query parameters of the Pexels search request. -/
structure SearchParams where
  query : String
  orientation : String
  perPage : Nat
  minDuration : Int
  maxDuration : Int
deriving DecidableEq

/-- Embeds the `params = {...}` dict of
`ContentDownloader.get_pexels_video`. -/
def searchParams (query : String) (duration : Int) : SearchParams :=
  { query := query
  , orientation := "portrait"
  , perPage := 20
  , minDuration := duration - 2
  , maxDuration := duration + 2 }

/-- Outcome of `ContentDownloader.get_pexels_video`: the request that was
sent, the candidate `random.choice` selected (when one was), the returned path
or raised error, the number of download attempts and warnings, and the
resulting filesystem. -/
structure FetchOutcome where
  request : SearchParams
  selected : Option PexelsVideo
  result : Except String String
  downloadAttempts : Nat
  warnings : Nat
  fs : Fs

/-- Embeds `ContentDownloader.get_pexels_video(query, duration)`: builds the
search request, raises `ValueError("No videos found matching criteria")` on an
empty result list, otherwise selects one candidate by `random.choice`, takes
`video["video_files"][0]["link"]`, and downloads it to
`pexels_{id}.mp4` via `_download_file`. -/
def getPexelsVideo (searchVideos : List PexelsVideo) (choiceIdx : Nat)
    (transport : Nat → Option String) (query : String) (duration : Int)
    (fs : Fs) : FetchOutcome :=
  let params := searchParams query duration
  if h : searchVideos.length = 0 then
    ⟨params, none, .error "No videos found matching criteria", 0, 0, fs⟩
  else
    let v := searchVideos.get
      ⟨choiceIdx % searchVideos.length, Nat.mod_lt choiceIdx (Nat.pos_of_ne_zero h)⟩
    match v.videoFiles with
    | [] => ⟨params, some v, .error "IndexError: list index out of range", 0, 0, fs⟩
    | link :: _ =>
      let o := downloadFile transport link ("pexels_" ++ toString v.id ++ ".mp4") fs
      ⟨params, some v, o.result, o.attempts, o.warnings, o.fs⟩

/-- Embeds the cleanup loop of `run_pipeline`:
`for f in [...]: f.unlink(missing_ok=True)`. -/
def cleanup : List String → Fs → Except String Fs
  | [], fs => .ok fs
  | p :: rest, fs =>
    match fsUnlink true p fs with
    | .ok fs1 => cleanup rest fs1
    | .error e => .error e

/-- The external world one `run_pipeline` invocation interacts with: the
parsed search response, the random draws, the HTTP transport, the music
directory, and the success/failure of the external encode, image and upload
operations. -/
structure PipelineEnv where
  searchVideos : List PexelsVideo
  choiceIdx : Nat
  transport : Nat → Option String
  musicDir : MusicDir
  musicIdx : Nat
  encodeOk : Bool
  clipDuration : ℚ
  frameRand : ℚ
  frameOk : Bool
  uploadId : Option String
  thumbAttachOk : Bool

/-- Outcome of `ContentScheduler.run_pipeline`: the returned video id or the
re-raised error, and the final filesystem. -/
structure PipelineResult where
  result : Except String String
  fs : Fs

/-- The fixed intermediate output path `TEMP_DIR / "processed.mp4"`. -/
def processedFile : String := "temp/processed.mp4"

/-- The fixed intermediate output path `TEMP_DIR / "thumbnail.jpg"`. -/
def thumbnailFile : String := "temp/thumbnail.jpg"

/-- Embeds `ContentScheduler.run_pipeline(niche, query)`: download (with the
default `duration=15`), edit, thumbnail, metadata assembly, upload, then
cleanup of the three intermediate files; every stage's exception is logged and
re-raised, so cleanup runs only after a successful upload. -/
def runPipeline (env : PipelineEnv) (niche query : String) (fs : Fs) :
    PipelineResult :=
  let fo := getPexelsVideo env.searchVideos env.choiceIdx env.transport query 15 fs
  match fo.result with
  | .error e => ⟨.error e, fo.fs⟩
  | .ok videoPath =>
    match processVideo env.musicDir env.musicIdx env.encodeOk
        videoPath processedFile captionText fo.fs with
    | .error e => ⟨.error e, fo.fs⟩
    | .ok (editedPath, fs1) =>
      let t := generate env.clipDuration env.frameRand env.frameOk
        editedPath thumbnailFile "WATCH NOW!" fs1
      match t.result with
      | .error e => ⟨.error e, fs1⟩
      | .ok (thumbPath, fs2) =>
        let metadata := mkMetadata niche
        match uploadVideo env.uploadId env.thumbAttachOk
            editedPath metadata (some thumbPath) fs2 with
        | .error e => ⟨.error e, fs2⟩
        | .ok (_, vid) =>
          match cleanup [videoPath, editedPath, thumbPath] fs2 with
          | .error e => ⟨.error e, fs2⟩
          | .ok fs3 => ⟨.ok vid, fs3⟩

/-! ## Theorems -/

/-- C2: `_download_file` makes at most 3 attempts; a successful first attempt
returns the written path at once with no warning; a transport that fails twice
and then succeeds yields the written path with exactly 2 warnings; a transport
that always fails raises the "download failed" error naming the URL after
exactly 3 attempts. -/
theorem download_retry_policy (transport : Nat → Option String)
    (url filename : String) (fs : Fs) :
    (downloadFile transport url filename fs).attempts ≤ 3 ∧
    (∀ b, transport 0 = some b →
      (downloadFile transport url filename fs).result = .ok ("content/" ++ filename) ∧
      (downloadFile transport url filename fs).warnings = 0) ∧
    (transport 0 = none → transport 1 = none → (∃ b, transport 2 = some b) →
      (downloadFile transport url filename fs).result = .ok ("content/" ++ filename) ∧
      (downloadFile transport url filename fs).warnings = 2) ∧
    (transport 0 = none → transport 1 = none → transport 2 = none →
      (downloadFile transport url filename fs).result =
        .error ("Failed to download " ++ url ++ " after 3 attempts") ∧
      (downloadFile transport url filename fs).attempts = 3) := by
  rcases h0 : transport 0 with _ | b0 <;> rcases h1 : transport 1 with _ | b1 <;>
    rcases h2 : transport 2 with _ | b2 <;>
      simp [downloadFile, downloadFileGo, h0, h1, h2]

/-- Witness for `download_retry_policy`: a transport failing on attempts 0 and
1 and succeeding on attempt 2 returns the written path with 2 warnings. -/
theorem download_retry_policy_witness :
    (downloadFile (fun n => if n < 2 then none else some "payload")
      "http://v.example/clip.mp4" "pexels_1.mp4" []).result = .ok "content/pexels_1.mp4" ∧
    (downloadFile (fun n => if n < 2 then none else some "payload")
      "http://v.example/clip.mp4" "pexels_1.mp4" []).warnings = 2 :=
  (download_retry_policy (fun n => if n < 2 then none else some "payload")
    "http://v.example/clip.mp4" "pexels_1.mp4" []).2.2.1 rfl rfl ⟨"payload", rfl⟩

/-- C6: on a search response with zero candidate videos, `get_pexels_video`
raises the "no results" error, performs no download attempt, and leaves the
filesystem untouched. -/
theorem empty_search_raises_without_download (choiceIdx : Nat)
    (transport : Nat → Option String) (query : String) (duration : Int)
    (fs : Fs) :
    (getPexelsVideo [] choiceIdx transport query duration fs).result =
      .error "No videos found matching criteria" ∧
    (getPexelsVideo [] choiceIdx transport query duration fs).downloadAttempts = 0 ∧
    (getPexelsVideo [] choiceIdx transport query duration fs).fs = fs := by
  simp [getPexelsVideo]

/-- C9: every search request carries orientation "portrait", the duration
window `[duration-2, duration+2]`, page size 20 and the given query; and on a
non-empty result list the draw of index `j` selects exactly candidate `j`, so
each candidate of the result set is selected by exactly one value of the
uniform index draw. -/
theorem search_request_and_uniform_selection (videos : List PexelsVideo)
    (transport : Nat → Option String) (query : String) (duration : Int)
    (fs : Fs) :
    (∀ i, (getPexelsVideo videos i transport query duration fs).request =
      { query := query, orientation := "portrait", perPage := 20,
        minDuration := duration - 2, maxDuration := duration + 2 }) ∧
    (∀ j : Fin videos.length,
      (getPexelsVideo videos j transport query duration fs).selected =
        some (videos.get j)) := by
  constructor
  · intro i
    unfold getPexelsVideo
    dsimp only
    split
    · rfl
    · split <;> rfl
  · intro j
    have hne : ¬ videos.length = 0 := Nat.pos_iff_ne_zero.mp j.pos
    have hcast : (⟨j.val % videos.length,
        Nat.mod_lt j.val (Nat.pos_of_ne_zero hne)⟩ : Fin videos.length) = j :=
      Fin.ext (Nat.mod_eq_of_lt j.isLt)
    simp only [getPexelsVideo, dif_neg hne, hcast]
    rcases hvf : (videos.get j).videoFiles with _ | ⟨l, ls⟩ <;> simp [hvf]

/-- C1 counterexample: at clip duration 3 (> 2) the uniform draw `r = 0` makes
the generator sample timestamp exactly 1, which is not strictly inside
`(1, duration - 1)`; and at clip duration 2 (≤ 2) `generate` does not raise:
it samples timestamp 1 and succeeds. -/
theorem thumbnail_sampling_counterexample :
    ¬ (1 < generateTimestamp 3 0) ∧
    (generate 2 (1/2) true "temp/processed.mp4" "temp/thumbnail.jpg"
        "WATCH NOW!" ["temp/processed.mp4"]).sampled = some 1 ∧
    (generate 2 (1/2) true "temp/processed.mp4" "temp/thumbnail.jpg"
        "WATCH NOW!" ["temp/processed.mp4"]).result =
      .ok ("temp/thumbnail.jpg", ["temp/thumbnail.jpg", "temp/processed.mp4"]) := by
  refine ⟨by norm_num [generateTimestamp, uniform], ?_, ?_⟩ <;>
    · norm_num [generate, generateTimestamp, uniform, fsWrite]
      all_goals decide

/-- C1 amended: for clip duration > 2 the sampled frame timestamp lies in the
closed interval `[1, duration - 1]` (the endpoints included); for duration
≤ 2 the generator does not raise at the sampling step but samples a timestamp
lying in `[duration - 1, 1]`. -/
theorem thumbnail_timestamp_closed_interval (d r : ℚ)
    (h0 : 0 ≤ r) (h1 : r ≤ 1) :
    (2 < d → 1 ≤ generateTimestamp d r ∧ generateTimestamp d r ≤ d - 1) ∧
    (d ≤ 2 → d - 1 ≤ generateTimestamp d r ∧ generateTimestamp d r ≤ 1) := by
  unfold generateTimestamp uniform
  constructor <;> intro hd <;> constructor <;> nlinarith

/-- Witness for `thumbnail_timestamp_closed_interval` at duration 4 and
draw 1/2. -/
theorem thumbnail_timestamp_closed_interval_witness :
    1 ≤ generateTimestamp 4 (1/2) ∧ generateTimestamp 4 (1/2) ≤ 4 - 1 :=
  (thumbnail_timestamp_closed_interval 4 (1/2) (by norm_num) (by norm_num)).1
    (by norm_num)

/-- C3 (code evaluation): with a music directory that does not exist the edit
completes with no audio mixed; with an existing directory holding one track
the edit completes with that track mixed at volume 0.3; but with an existing
directory holding zero tracks, `random.choice` on the empty glob result
raises `IndexError`, so processing fails instead of completing without
mixing. -/
theorem music_mixing_empty_dir_bug :
    (processVideoAudio ⟨false, []⟩ 0 = .ok .noMusic) ∧
    (processVideoAudio ⟨true, ["beat.mp3"]⟩ 0 = .ok (.track "beat.mp3" (3/10))) ∧
    (processVideo ⟨false, []⟩ 0 true "content/pexels_1.mp4" processedFile
        captionText ["content/pexels_1.mp4"] =
      .ok (processedFile, [processedFile, "content/pexels_1.mp4"])) ∧
    (processVideo ⟨true, []⟩ 0 true "content/pexels_1.mp4" processedFile
        captionText ["content/pexels_1.mp4"] =
      .error "IndexError: Cannot choose from an empty sequence") :=
  ⟨rfl, rfl, rfl, rfl⟩

/-- C4 (code evaluation): for niche "fitness" the assembled tags are exactly
`["fitness", "shorts", "viral"]` as claimed, but the title is
`"5 Second Fitness Hacks! "` followed by the four-character mojibake sequence
`U+00F0 U+0178 U+0161 U+20AC`, which differs from the claimed
`"5 Second Fitness Hacks! 🚀"` (ending in U+1F680). -/
theorem fitness_metadata_title_bug :
    (mkMetadata "fitness").title = "5 Second Fitness Hacks! ðŸš€" ∧
    (mkMetadata "fitness").title ≠ "5 Second Fitness Hacks! 🚀" ∧
    (mkMetadata "fitness").tags = ["fitness", "shorts", "viral"] := by
  refine ⟨by decide, by decide, rfl⟩

/-- C8: whenever `upload_video` reaches the API, the request body it builds
has visibility "public", the explicit not-made-for-kids declaration, the
fixed category id "24", the metadata's title and tags, and a description
equal to the free description text, a blank line, the fixed hashtag list, and
a niche-derived hashtag on the last line. -/
theorem upload_request_body_fields (uploadId : Option String)
    (thumbAttachOk : Bool) (videoPath : String) (m : VideoMetadata)
    (thumbnailPath : Option String) (fs : Fs) (b : UploadBody) (vid : String)
    (h : uploadVideo uploadId thumbAttachOk videoPath m thumbnailPath fs =
      .ok (b, vid)) :
    b.privacyStatus = "public" ∧
    b.selfDeclaredMadeForKids = false ∧
    b.categoryId = "24" ∧
    b.title = m.title ∧
    b.tags = m.tags ∧
    b.description =
      m.description ++ "\n\n#Shorts #Viral #Trending\n#" ++
        m.niche.replace " " "" := by
  have hb : b = uploadBody m := by
    unfold uploadVideo at h
    repeat' split at h
    all_goals
      first
        | exact Except.noConfusion h
        | (injection h with h1; injection h1 with h2 h3; exact h2.symm)
  subst hb
  refine ⟨rfl, rfl, rfl, rfl, rfl, ?_⟩
  show buildDescription m = _
  apply String.ext
  simp [buildDescription, pyJoin, defaultHashtags, String.data_append]

/-- Witness for `upload_request_body_fields`: an upload of the fitness-run
metadata that reaches the API. -/
theorem upload_request_body_fields_witness :
    (uploadBody (mkMetadata "fitness")).privacyStatus = "public" ∧
    (uploadBody (mkMetadata "fitness")).selfDeclaredMadeForKids = false ∧
    (uploadBody (mkMetadata "fitness")).categoryId = "24" ∧
    (uploadBody (mkMetadata "fitness")).title = (mkMetadata "fitness").title ∧
    (uploadBody (mkMetadata "fitness")).tags = (mkMetadata "fitness").tags ∧
    (uploadBody (mkMetadata "fitness")).description =
      (mkMetadata "fitness").description ++ "\n\n#Shorts #Viral #Trending\n#" ++
        (mkMetadata "fitness").niche.replace " " "" :=
  upload_request_body_fields (some "vid9") true "temp/processed.mp4"
    (mkMetadata "fitness") (some "temp/thumbnail.jpg") ["temp/processed.mp4"]
    (uploadBody (mkMetadata "fitness")) "vid9" rfl

/-- The filesystem effect of one `missing_ok` unlink: all copies of the path
are gone. -/
def removeOne (p : String) (fs : Fs) : Fs := fs.filter (fun q => q != p)

/-- A `missing_ok=True` unlink never raises: it returns the filesystem with
the path removed, also when the path was already missing. -/
theorem fsUnlink_missingOk_eq (p : String) (fs : Fs) :
    fsUnlink true p fs = .ok (removeOne p fs) := by
  unfold fsUnlink removeOne
  split
  · rfl
  · rename_i hmem
    have hself : fs.filter (fun q => q != p) = fs :=
      List.filter_eq_self.mpr (fun a ha => by
        simp only [bne_iff_ne, ne_eq]
        exact fun hap => hmem (hap ▸ ha))
    simp [hself]

/-- The cleanup loop never raises and computes the fold of removals. -/
theorem cleanup_eq_removeAll : ∀ (paths : List String) (fs : Fs),
    cleanup paths fs = .ok (paths.foldl (fun acc p => removeOne p acc) fs)
  | [], _ => rfl
  | p :: rest, fs => by
    rw [cleanup, fsUnlink_missingOk_eq]
    exact cleanup_eq_removeAll rest (removeOne p fs)

/-- Removing one path commutes with a fold of removals. -/
theorem removeOne_foldl_comm (p : String) :
    ∀ (paths : List String) (fs : Fs),
      removeOne p (paths.foldl (fun acc q => removeOne q acc) fs) =
        paths.foldl (fun acc q => removeOne q acc) (removeOne p fs)
  | [], _ => rfl
  | q :: rest, fs => by
    simp only [List.foldl_cons]
    rw [removeOne_foldl_comm p rest (removeOne q fs)]
    congr 1
    exact List.filter_comm _ _ fs

/-- Removing one path twice is the same as removing it once. -/
theorem removeOne_idem (p : String) (fs : Fs) :
    removeOne p (removeOne p fs) = removeOne p fs := by
  unfold removeOne
  simp [List.filter_filter]

/-- The fold of removals is idempotent. -/
theorem foldl_removeOne_idem : ∀ (paths : List String) (fs : Fs),
    paths.foldl (fun acc q => removeOne q acc)
        (paths.foldl (fun acc q => removeOne q acc) fs) =
      paths.foldl (fun acc q => removeOne q acc) fs
  | [], _ => rfl
  | p :: rest, fs => by
    simp only [List.foldl_cons]
    rw [removeOne_foldl_comm, removeOne_idem]
    exact foldl_removeOne_idem rest (removeOne p fs)

/-- C7: the intermediate-file cleanup never raises — on every filesystem,
also when the files are already missing, it returns a result — and invoking
it a second time on the filesystem the first invocation produced returns that
filesystem unchanged. -/
theorem cleanup_never_raises_and_idempotent (paths : List String) (fs : Fs) :
    (∃ fs1, cleanup paths fs = .ok fs1) ∧
    (∀ fs1, cleanup paths fs = .ok fs1 → cleanup paths fs1 = .ok fs1) := by
  refine ⟨⟨_, cleanup_eq_removeAll paths fs⟩, ?_⟩
  intro fs1 h1
  have h2 := cleanup_eq_removeAll paths fs
  rw [h1] at h2
  injection h2 with h2
  subst h2
  rw [cleanup_eq_removeAll, foldl_removeOne_idem]

/-- Witness for `cleanup_never_raises_and_idempotent`: cleaning the three
intermediate paths on a filesystem where only the processed file still exists
succeeds, and cleaning again on the resulting empty filesystem succeeds and
changes nothing. -/
theorem cleanup_never_raises_and_idempotent_witness :
    cleanup ["content/pexels_1.mp4", processedFile, thumbnailFile] [] =
      .ok ([] : Fs) :=
  (cleanup_never_raises_and_idempotent
    ["content/pexels_1.mp4", processedFile, thumbnailFile] [processedFile]).2
    [] (by rfl)

/-- Writing a file leaves it present. -/
theorem fsWrite_mem_self (fs : Fs) (p : String) : p ∈ fsWrite fs p := by
  unfold fsWrite
  split
  · assumption
  · exact List.mem_cons_self p fs

/-- Writing a file deletes nothing. -/
theorem fsWrite_mem_mono (fs : Fs) (p q : String) (hq : q ∈ fs) :
    q ∈ fsWrite fs p := by
  unfold fsWrite
  split
  · exact hq
  · exact List.mem_cons_of_mem p hq

/-- The download loop deletes nothing. -/
theorem downloadFileGo_fs_mono (t : Nat → Option String) (url path : String) :
    ∀ (attempts : List Nat) (warns : Nat) (fs : Fs) (q : String), q ∈ fs →
      q ∈ (downloadFileGo t url path fs attempts warns).fs
  | [], _, _, _, hq => hq
  | a :: rest, warns, fs, q, hq => by
    cases hta : t a with
    | none =>
      rw [downloadFileGo, hta]
      exact downloadFileGo_fs_mono t url path rest (warns + 1) fs q hq
    | some b =>
      rw [downloadFileGo, hta]
      exact fsWrite_mem_mono fs path q hq

/-- When the download loop returns a path, that path is on disk. -/
theorem downloadFileGo_ok_mem (t : Nat → Option String) (url path : String) :
    ∀ (attempts : List Nat) (warns : Nat) (fs : Fs) (dl : String),
      (downloadFileGo t url path fs attempts warns).result = .ok dl →
      dl ∈ (downloadFileGo t url path fs attempts warns).fs
  | [], _, _, _, h => absurd h (by simp [downloadFileGo])
  | a :: rest, warns, fs, dl, h => by
    cases hta : t a with
    | none =>
      rw [downloadFileGo, hta] at h ⊢
      exact downloadFileGo_ok_mem t url path rest (warns + 1) fs dl h
    | some b =>
      rw [downloadFileGo, hta] at h ⊢
      have h2 : Except.ok (ε := String) path = .ok dl := h
      injection h2 with h3
      exact h3 ▸ fsWrite_mem_self fs path

/-- `get_pexels_video` deletes nothing. -/
theorem getPexelsVideo_fs_mono (videos : List PexelsVideo) (i : Nat)
    (t : Nat → Option String) (query : String) (duration : Int) (fs : Fs)
    (q : String) (hq : q ∈ fs) :
    q ∈ (getPexelsVideo videos i t query duration fs).fs := by
  unfold getPexelsVideo
  dsimp only
  split
  · exact hq
  · split
    · exact hq
    · exact downloadFileGo_fs_mono t _ _ [0, 1, 2] 0 fs q hq

/-- When `get_pexels_video` returns a path, that path is on disk. -/
theorem getPexelsVideo_ok_mem (videos : List PexelsVideo) (i : Nat)
    (t : Nat → Option String) (query : String) (duration : Int) (fs : Fs)
    (dl : String)
    (h : (getPexelsVideo videos i t query duration fs).result = .ok dl) :
    dl ∈ (getPexelsVideo videos i t query duration fs).fs := by
  unfold getPexelsVideo at h ⊢
  dsimp only at h ⊢
  split at h
  · exact Except.noConfusion h
  · rename_i hne
    split at h
    · exact Except.noConfusion h
    · rename_i link tail hvf
      rw [dif_neg hne, hvf]
      exact downloadFileGo_ok_mem t _ _ [0, 1, 2] 0 fs dl h

/-- A successful edit returns the output path and writes exactly it. -/
theorem processVideo_ok_fs (md : MusicDir) (mi : Nat) (eo : Bool)
    (ip op txt : String) (fs0 : Fs) (ep : String) (fs1 : Fs)
    (h : processVideo md mi eo ip op txt fs0 = .ok (ep, fs1)) :
    ep = op ∧ fs1 = fsWrite fs0 op := by
  unfold processVideo at h
  repeat' split at h
  all_goals
    first
      | exact Except.noConfusion h
      | (injection h with h1; injection h1 with h2 h3; exact ⟨h2.symm, h3.symm⟩)

/-- A successful thumbnail generation returns the output path and writes
exactly it. -/
theorem generate_ok_fs (d r : ℚ) (fOk : Bool) (vp op txt : String) (fs0 : Fs)
    (tp : String) (fs2 : Fs)
    (h : (generate d r fOk vp op txt fs0).result = .ok (tp, fs2)) :
    tp = op ∧ fs2 = fsWrite fs0 op := by
  unfold generate at h
  repeat' split at h
  all_goals
    first
      | exact Except.noConfusion h
      | (injection h with h1; injection h1 with h2 h3; exact ⟨h2.symm, h3.symm⟩)

/-- A successful upload returns exactly the id of the API's terminal
response. -/
theorem uploadVideo_ok_id (uploadId : Option String) (tOk : Bool)
    (vp : String) (m : VideoMetadata) (tp : Option String) (fs : Fs)
    (b : UploadBody) (vid : String)
    (h : uploadVideo uploadId tOk vp m tp fs = .ok (b, vid)) :
    uploadId = some vid := by
  unfold uploadVideo at h
  repeat' split at h
  all_goals
    first
      | exact Except.noConfusion h
      | (injection h with h1; injection h1 with h2 h3; rw [h3])

/-- Exhaustive description of one `run_pipeline` invocation: it stops at the
first failing stage, returning that stage's error with the filesystem as it
was at that point, or all stages succeed and cleanup folds the removals of
the three intermediate files. -/
theorem runPipeline_cases (env : PipelineEnv) (niche query : String)
    (fs : Fs) :
    (∃ e, (getPexelsVideo env.searchVideos env.choiceIdx env.transport query 15 fs).result = .error e ∧
      runPipeline env niche query fs =
        ⟨.error e, (getPexelsVideo env.searchVideos env.choiceIdx env.transport query 15 fs).fs⟩) ∨
    (∃ dl e, (getPexelsVideo env.searchVideos env.choiceIdx env.transport query 15 fs).result = .ok dl ∧
      processVideo env.musicDir env.musicIdx env.encodeOk dl processedFile captionText
        (getPexelsVideo env.searchVideos env.choiceIdx env.transport query 15 fs).fs = .error e ∧
      runPipeline env niche query fs =
        ⟨.error e, (getPexelsVideo env.searchVideos env.choiceIdx env.transport query 15 fs).fs⟩) ∨
    (∃ dl ep fs1 e, (getPexelsVideo env.searchVideos env.choiceIdx env.transport query 15 fs).result = .ok dl ∧
      processVideo env.musicDir env.musicIdx env.encodeOk dl processedFile captionText
        (getPexelsVideo env.searchVideos env.choiceIdx env.transport query 15 fs).fs = .ok (ep, fs1) ∧
      (generate env.clipDuration env.frameRand env.frameOk ep thumbnailFile "WATCH NOW!" fs1).result = .error e ∧
      runPipeline env niche query fs = ⟨.error e, fs1⟩) ∨
    (∃ dl ep fs1 tp fs2 e, (getPexelsVideo env.searchVideos env.choiceIdx env.transport query 15 fs).result = .ok dl ∧
      processVideo env.musicDir env.musicIdx env.encodeOk dl processedFile captionText
        (getPexelsVideo env.searchVideos env.choiceIdx env.transport query 15 fs).fs = .ok (ep, fs1) ∧
      (generate env.clipDuration env.frameRand env.frameOk ep thumbnailFile "WATCH NOW!" fs1).result = .ok (tp, fs2) ∧
      uploadVideo env.uploadId env.thumbAttachOk ep (mkMetadata niche) (some tp) fs2 = .error e ∧
      runPipeline env niche query fs = ⟨.error e, fs2⟩) ∨
    (∃ dl ep fs1 tp fs2 b vid, (getPexelsVideo env.searchVideos env.choiceIdx env.transport query 15 fs).result = .ok dl ∧
      processVideo env.musicDir env.musicIdx env.encodeOk dl processedFile captionText
        (getPexelsVideo env.searchVideos env.choiceIdx env.transport query 15 fs).fs = .ok (ep, fs1) ∧
      (generate env.clipDuration env.frameRand env.frameOk ep thumbnailFile "WATCH NOW!" fs1).result = .ok (tp, fs2) ∧
      uploadVideo env.uploadId env.thumbAttachOk ep (mkMetadata niche) (some tp) fs2 = .ok (b, vid) ∧
      runPipeline env niche query fs =
        ⟨.ok vid, [dl, ep, tp].foldl (fun acc p => removeOne p acc) fs2⟩) := by
  rcases hfo : (getPexelsVideo env.searchVideos env.choiceIdx env.transport query 15 fs).result with e | dl
  · exact .inl ⟨e, rfl, by unfold runPipeline; simp only [hfo]⟩
  · rcases hpv : processVideo env.musicDir env.musicIdx env.encodeOk dl processedFile captionText
        (getPexelsVideo env.searchVideos env.choiceIdx env.transport query 15 fs).fs with e | ⟨ep, fs1⟩
    · exact .inr (.inl ⟨dl, e, rfl, hpv, by unfold runPipeline; simp only [hfo, hpv]⟩)
    · rcases hgen : (generate env.clipDuration env.frameRand env.frameOk ep thumbnailFile
          "WATCH NOW!" fs1).result with e | ⟨tp, fs2⟩
      · exact .inr (.inr (.inl ⟨dl, ep, fs1, e, rfl, hpv, hgen,
          by unfold runPipeline; simp only [hfo, hpv, hgen]⟩))
      · rcases hup : uploadVideo env.uploadId env.thumbAttachOk ep (mkMetadata niche)
            (some tp) fs2 with e | ⟨b, vid⟩
        · exact .inr (.inr (.inr (.inl ⟨dl, ep, fs1, tp, fs2, e, rfl, hpv, hgen, hup,
            by unfold runPipeline; simp only [hfo, hpv, hgen, hup]⟩)))
        · exact .inr (.inr (.inr (.inr ⟨dl, ep, fs1, tp, fs2, b, vid, rfl, hpv, hgen, hup,
            by unfold runPipeline; simp only [hfo, hpv, hgen, hup, cleanup_eq_removeAll]⟩)))

/-- A run that returns an id returns exactly the id of the upload API's
terminal response. -/
theorem runPipeline_ok_uploadId (env : PipelineEnv) (niche query : String)
    (fs : Fs) (vid : String)
    (h : (runPipeline env niche query fs).result = .ok vid) :
    env.uploadId = some vid := by
  rcases runPipeline_cases env niche query fs with
    ⟨e, _, hrp⟩ | ⟨dl, e, _, _, hrp⟩ | ⟨dl, ep, fs1, e, _, _, _, hrp⟩ |
    ⟨dl, ep, fs1, tp, fs2, e, _, _, _, _, hrp⟩ |
    ⟨dl, ep, fs1, tp, fs2, b, vid0, _, _, _, hup, hrp⟩
  · rw [hrp] at h; exact Except.noConfusion h
  · rw [hrp] at h; exact Except.noConfusion h
  · rw [hrp] at h; exact Except.noConfusion h
  · rw [hrp] at h; exact Except.noConfusion h
  · rw [hrp] at h
    have h2 : Except.ok (ε := String) vid0 = .ok vid := h
    injection h2 with h3
    exact h3 ▸ uploadVideo_ok_id _ _ _ _ _ _ _ _ hup

/-- C5: provided every terminal upload response carries a non-empty
provider-assigned id, `run_pipeline` never returns an empty identifier
silently: a run that returns at all returns a non-empty id (any stage failure
is re-raised instead). -/
theorem runPipeline_no_silent_empty_id (env : PipelineEnv)
    (niche query : String) (fs : Fs)
    (hid : ∀ v, env.uploadId = some v → v ≠ "") (vid : String)
    (h : (runPipeline env niche query fs).result = .ok vid) : vid ≠ "" :=
  hid vid (runPipeline_ok_uploadId env niche query fs vid h)

/-- A concrete external world in which every collaborator succeeds: one
search candidate, a transport that answers every attempt, no music directory,
and an upload API that assigns the id "yt_abc123". -/
def sampleEnvOk : PipelineEnv :=
  { searchVideos := [⟨77, ["http://v.example/clip.mp4"]⟩]
  , choiceIdx := 0
  , transport := fun _ => some "payload"
  , musicDir := ⟨false, []⟩
  , musicIdx := 0
  , encodeOk := true
  , clipDuration := 10
  , frameRand := 1/2
  , frameOk := true
  , uploadId := some "yt_abc123"
  , thumbAttachOk := true }

/-- Witness for `runPipeline_no_silent_empty_id`: in `sampleEnvOk` the run
returns "yt_abc123", which is non-empty. -/
theorem runPipeline_no_silent_empty_id_witness :
    (runPipeline sampleEnvOk "fitness" "exercise motivation" []).result =
      .ok "yt_abc123" ∧ "yt_abc123" ≠ "" :=
  ⟨rfl, runPipeline_no_silent_empty_id sampleEnvOk "fitness"
    "exercise motivation" []
    (fun v hv => by
      have hv2 : some "yt_abc123" = some v := hv
      injection hv2 with hv3
      exact hv3 ▸ (by decide))
    "yt_abc123" rfl⟩

/-- C10: on a failed run no file is ever deleted — every file present before
the run is still present afterwards — and each intermediate file created by a
stage that completed (the downloaded clip, the processed video, the
thumbnail) is still on disk, because cleanup runs only after a successful
upload. -/
theorem failed_run_keeps_files (env : PipelineEnv) (niche query : String)
    (fs : Fs) :
    (∀ e, (runPipeline env niche query fs).result = .error e →
      ∀ q, q ∈ fs → q ∈ (runPipeline env niche query fs).fs) ∧
    (∀ e dl, (runPipeline env niche query fs).result = .error e →
      (getPexelsVideo env.searchVideos env.choiceIdx env.transport query 15 fs).result = .ok dl →
      dl ∈ (runPipeline env niche query fs).fs) ∧
    (∀ e dl ep fs1, (runPipeline env niche query fs).result = .error e →
      (getPexelsVideo env.searchVideos env.choiceIdx env.transport query 15 fs).result = .ok dl →
      processVideo env.musicDir env.musicIdx env.encodeOk dl processedFile captionText
        (getPexelsVideo env.searchVideos env.choiceIdx env.transport query 15 fs).fs = .ok (ep, fs1) →
      ep ∈ (runPipeline env niche query fs).fs) ∧
    (∀ e dl ep fs1 tp fs2, (runPipeline env niche query fs).result = .error e →
      (getPexelsVideo env.searchVideos env.choiceIdx env.transport query 15 fs).result = .ok dl →
      processVideo env.musicDir env.musicIdx env.encodeOk dl processedFile captionText
        (getPexelsVideo env.searchVideos env.choiceIdx env.transport query 15 fs).fs = .ok (ep, fs1) →
      (generate env.clipDuration env.frameRand env.frameOk ep thumbnailFile "WATCH NOW!" fs1).result = .ok (tp, fs2) →
      tp ∈ (runPipeline env niche query fs).fs ∧
      ep ∈ (runPipeline env niche query fs).fs ∧
      dl ∈ (runPipeline env niche query fs).fs) := by
  rcases runPipeline_cases env niche query fs with
    ⟨e0, hfo, hrp⟩ | ⟨dl0, e0, hfo, hpv0, hrp⟩ |
    ⟨dl0, ep0, fs10, e0, hfo, hpv0, hgen0, hrp⟩ |
    ⟨dl0, ep0, fs10, tp0, fs20, e0, hfo, hpv0, hgen0, hup0, hrp⟩ |
    ⟨dl0, ep0, fs10, tp0, fs20, b0, vid0, hfo, hpv0, hgen0, hup0, hrp⟩
  · refine ⟨?_, ?_, ?_, ?_⟩
    · intro e _ q hq
      rw [hrp]
      exact getPexelsVideo_fs_mono _ _ _ _ _ _ q hq
    · intro e dl _ hdl
      rw [hfo] at hdl
      exact Except.noConfusion hdl
    · intro e dl ep fs1 _ hdl _
      rw [hfo] at hdl
      exact Except.noConfusion hdl
    · intro e dl ep fs1 tp fs2 _ hdl _ _
      rw [hfo] at hdl
      exact Except.noConfusion hdl
  · have hdl0 : dl0 ∈ (getPexelsVideo env.searchVideos env.choiceIdx env.transport query 15 fs).fs :=
      getPexelsVideo_ok_mem _ _ _ _ _ _ _ hfo
    refine ⟨?_, ?_, ?_, ?_⟩
    · intro e _ q hq
      rw [hrp]
      exact getPexelsVideo_fs_mono _ _ _ _ _ _ q hq
    · intro e dl _ hdl
      have h3 : dl0 = dl := Except.ok.inj (hfo.symm.trans hdl)
      rw [hrp]
      exact h3 ▸ hdl0
    · intro e dl ep fs1 _ hdl hpv
      have h3 : dl0 = dl := Except.ok.inj (hfo.symm.trans hdl)
      subst h3
      rw [hpv] at hpv0
      exact Except.noConfusion hpv0
    · intro e dl ep fs1 tp fs2 _ hdl hpv _
      have h3 : dl0 = dl := Except.ok.inj (hfo.symm.trans hdl)
      subst h3
      rw [hpv] at hpv0
      exact Except.noConfusion hpv0
  · obtain ⟨hep0, hfs10⟩ := processVideo_ok_fs _ _ _ _ _ _ _ _ _ hpv0
    have hdl0 : dl0 ∈ (getPexelsVideo env.searchVideos env.choiceIdx env.transport query 15 fs).fs :=
      getPexelsVideo_ok_mem _ _ _ _ _ _ _ hfo
    refine ⟨?_, ?_, ?_, ?_⟩
    · intro e _ q hq
      rw [hrp, hfs10]
      exact fsWrite_mem_mono _ _ _ (getPexelsVideo_fs_mono _ _ _ _ _ _ q hq)
    · intro e dl _ hdl
      have h3 : dl0 = dl := Except.ok.inj (hfo.symm.trans hdl)
      rw [hrp, hfs10]
      exact fsWrite_mem_mono _ _ _ (h3 ▸ hdl0)
    · intro e dl ep fs1 _ hdl hpv
      have h3 : dl0 = dl := Except.ok.inj (hfo.symm.trans hdl)
      subst h3
      have h4 := Except.ok.inj (hpv0.symm.trans hpv)
      injection h4 with hep hfs
      rw [hrp, hfs10, ← hep, hep0]
      exact fsWrite_mem_self _ _
    · intro e dl ep fs1 tp fs2 _ hdl hpv hgen
      have h3 : dl0 = dl := Except.ok.inj (hfo.symm.trans hdl)
      subst h3
      have h4 := Except.ok.inj (hpv0.symm.trans hpv)
      injection h4 with hep hfs
      rw [← hep, ← hfs] at hgen
      rw [hgen] at hgen0
      exact Except.noConfusion hgen0
  · obtain ⟨hep0, hfs10⟩ := processVideo_ok_fs _ _ _ _ _ _ _ _ _ hpv0
    obtain ⟨htp0, hfs20⟩ := generate_ok_fs _ _ _ _ _ _ _ _ _ hgen0
    have hdl0 : dl0 ∈ (getPexelsVideo env.searchVideos env.choiceIdx env.transport query 15 fs).fs :=
      getPexelsVideo_ok_mem _ _ _ _ _ _ _ hfo
    refine ⟨?_, ?_, ?_, ?_⟩
    · intro e _ q hq
      rw [hrp, hfs20, hfs10]
      exact fsWrite_mem_mono _ _ _
        (fsWrite_mem_mono _ _ _ (getPexelsVideo_fs_mono _ _ _ _ _ _ q hq))
    · intro e dl _ hdl
      have h3 : dl0 = dl := Except.ok.inj (hfo.symm.trans hdl)
      rw [hrp, hfs20, hfs10]
      exact fsWrite_mem_mono _ _ _ (fsWrite_mem_mono _ _ _ (h3 ▸ hdl0))
    · intro e dl ep fs1 _ hdl hpv
      have h3 : dl0 = dl := Except.ok.inj (hfo.symm.trans hdl)
      subst h3
      have h4 := Except.ok.inj (hpv0.symm.trans hpv)
      injection h4 with hep hfs
      rw [hrp, hfs20, hfs10, ← hep, hep0]
      exact fsWrite_mem_mono _ _ _ (fsWrite_mem_self _ _)
    · intro e dl ep fs1 tp fs2 _ hdl hpv hgen
      have h3 : dl0 = dl := Except.ok.inj (hfo.symm.trans hdl)
      subst h3
      have h4 := Except.ok.inj (hpv0.symm.trans hpv)
      injection h4 with hep hfs
      rw [← hep, ← hfs] at hgen
      have h5 := Except.ok.inj (hgen0.symm.trans hgen)
      injection h5 with htp hfs2
      refine ⟨?_, ?_, ?_⟩
      · rw [hrp, hfs20, ← htp, htp0]
        exact fsWrite_mem_self _ _
      · rw [hrp, hfs20, hfs10, ← hep, hep0]
        exact fsWrite_mem_mono _ _ _ (fsWrite_mem_self _ _)
      · rw [hrp, hfs20, hfs10]
        exact fsWrite_mem_mono _ _ _ (fsWrite_mem_mono _ _ _ hdl0)
  · refine ⟨?_, ?_, ?_, ?_⟩ <;>
      · intro e
        first
          | (intro herr; rw [hrp] at herr; exact Except.noConfusion herr)
          | (intro dl herr; rw [hrp] at herr; exact Except.noConfusion herr)
          | (intro dl ep fs1 herr; rw [hrp] at herr; exact Except.noConfusion herr)
          | (intro dl ep fs1 tp fs2 herr; rw [hrp] at herr; exact Except.noConfusion herr)

/-- The world of `sampleEnvOk` but with a failing resumable upload. -/
def sampleEnvUploadFail : PipelineEnv :=
  { sampleEnvOk with uploadId := none }

/-- Witness for `failed_run_keeps_files`: with a failing upload the run
raises, and the downloaded clip, the processed video and the thumbnail are
all still on disk. -/
theorem failed_run_keeps_files_witness :
    thumbnailFile ∈ (runPipeline sampleEnvUploadFail "fitness" "exercise motivation" []).fs ∧
    processedFile ∈ (runPipeline sampleEnvUploadFail "fitness" "exercise motivation" []).fs ∧
    "content/pexels_77.mp4" ∈ (runPipeline sampleEnvUploadFail "fitness" "exercise motivation" []).fs :=
  (failed_run_keeps_files sampleEnvUploadFail "fitness" "exercise motivation"
      []).2.2.2 "Upload failed" "content/pexels_77.mp4" processedFile
    ["temp/processed.mp4", "content/pexels_77.mp4"] thumbnailFile
    ["temp/thumbnail.jpg", "temp/processed.mp4", "content/pexels_77.mp4"]
    rfl rfl rfl rfl

end YCM
